import Mathlib

/-!
Shallow embedding of the device polling and connection-management subsystem
of the DDMS backend (device_service, modbus_collector, device_manager,
notification_service), with theorems settling the specification claims.

Numeric values and thresholds are modelled by rationals (`ℚ`): the Python
code compares `float` values with `<`/`>`, and on the (finite) values the
spec talks about these comparisons agree with the rational order.
-/

namespace DDMS

/-! ## Status evaluator (src/backend/src/services/device_service.py, get_device_status) -/

/-- Device status bands computed by `get_device_status`. -/
inductive Status where
  | normal
  | warning
  | critical
  deriving DecidableEq, Repr

/-- The status-calculation core of `get_device_status`
(src/services/device_service.py lines 59-72): first-match-wins chain of
strict comparisons against four independently optional thresholds.
`none` models a NULL (absent) threshold. -/
def get_device_status_core (value : ℚ)
    (threshold_critical_lower threshold_critical_upper
     threshold_warning_lower threshold_warning_upper : Option ℚ) : Status :=
  if (match threshold_critical_lower with
      | some c => decide (value < c)
      | none => false) then Status.critical
  else if (match threshold_critical_upper with
      | some c => decide (value > c)
      | none => false) then Status.critical
  else if (match threshold_warning_lower with
      | some w => decide (value < w)
      | none => false) then Status.warning
  else if (match threshold_warning_upper with
      | some w => decide (value > w)
      | none => false) then Status.warning
  else Status.normal

/-- Evaluation written following the specification's words (§4.3): crit_lower
set and value < crit_lower → critical; else crit_upper set and
value > crit_upper → critical; else warn_lower set and value < warn_lower →
warning; else warn_upper set and value > warn_upper → warning; else normal. -/
def evaluate_spec (value : ℚ) (cl cu wl wu : Option ℚ) : Status :=
  match cl with
  | some c => if value < c then Status.critical else evaluate_spec_cu value cu wl wu
  | none => evaluate_spec_cu value cu wl wu
where
  evaluate_spec_cu (value : ℚ) (cu wl wu : Option ℚ) : Status :=
    match cu with
    | some c => if value > c then Status.critical else evaluate_spec_wl value wl wu
    | none => evaluate_spec_wl value wl wu
  evaluate_spec_wl (value : ℚ) (wl wu : Option ℚ) : Status :=
    match wl with
    | some w => if value < w then Status.warning else evaluate_spec_wu value wu
    | none => evaluate_spec_wu value wu
  evaluate_spec_wu (value : ℚ) (wu : Option ℚ) : Status :=
    match wu with
    | some w => if value > w then Status.warning else Status.normal
    | none => Status.normal

/-! ## Threshold validation (src/backend/src/services/device_service.py, create_device) -/

/-- `bothSet a b p`: both optional bounds are present and `p` holds of them
(models Python's `a is not None and b is not None` guard plus comparison). -/
def bothSet (a b : Option ℚ) (p : ℚ → ℚ → Bool) : Bool :=
  match a, b with
  | some x, some y => p x y
  | _, _ => false

/-- The threshold-ordering validation of `create_device`
(src/services/device_service.py lines 151-167): returns the ValueError
message raised, or `Except.ok ()` when all checks pass. Each check applies
only when both of its bounds are set. -/
def validate_thresholds (wl wu cl cu : Option ℚ) : Except String Unit :=
  if bothSet wl wu (fun l u => decide (l ≥ u)) then
    Except.error "Warning lower threshold must be less than warning upper threshold"
  else if bothSet cl cu (fun l u => decide (l ≥ u)) then
    Except.error "Critical lower threshold must be less than critical upper threshold"
  else if bothSet cl wl (fun c w => decide (c ≥ w)) then
    Except.error "Critical lower threshold must be less than warning lower threshold"
  else if bothSet cu wu (fun c w => decide (c ≤ w)) then
    Except.error "Critical upper threshold must be greater than warning upper threshold"
  else Except.ok ()

/-- Whether `validate_thresholds` accepted the configuration. -/
def thresholds_accepted (wl wu cl cu : Option ℚ) : Bool :=
  match validate_thresholds wl wu cl cu with
  | Except.ok _ => true
  | Except.error _ => false

/-- Inconsistent-threshold condition written following the claim's words:
warning_lower ≥ warning_upper, or critical_lower ≥ critical_upper, or
critical_lower ≥ warning_lower, or critical_upper ≤ warning_upper, each
check applying only when both of its bounds are set. -/
def thresholds_inconsistent_spec (wl wu cl cu : Option ℚ) : Bool :=
  bothSet wl wu (fun l u => decide (l ≥ u)) ||
  bothSet cl cu (fun l u => decide (l ≥ u)) ||
  bothSet cl wl (fun c w => decide (c ≥ w)) ||
  bothSet cu wu (fun c w => decide (c ≤ w))

/-! ## Protocol collector (src/backend/src/collectors/modbus_collector.py) -/

/-- Outcome of one wire-level `client.read_holding_registers` call. -/
inductive ReadOutcome where
  | ok (regs : List Nat)
  | errResp
  | modbusExc
  | otherExc
  deriving DecidableEq, Repr

/-- Whether an outcome is a successful (non-error) response. -/
def ReadOutcome.isOk : ReadOutcome → Bool
  | .ok _ => true
  | _ => false

/-- Environment for one invocation of `read_holding_registers`: the
connection state at entry, the result of each `connect()` call made during
the invocation (indexed by call order), and the outcome of each wire read
(indexed by 0-based attempt number). -/
structure ModbusEnv where
  initiallyConnected : Bool
  connectResult : Nat → Bool
  readResult : Nat → ReadOutcome

/-- The `for attempt in range(self.retries)` loop of
`ModbusCollector.read_holding_registers` (modbus_collector.py lines
107-158). Each iteration issues exactly one wire read; an erroring response,
a ModbusException, or an unexpected exception all fall through to the next
attempt (a failed reconnection after an erroring response `continue`s and
thus still consumes an attempt). Returns the register list (or `none` after
exhausting the budget) paired with the number of wire reads issued. -/
def read_holding_registers_loop (env : ModbusEnv) (retries attempt : Nat) :
    Option (List Nat) × Nat :=
  if attempt < retries then
    match env.readResult attempt with
    | .ok regs => (some regs, attempt + 1)
    | _ => read_holding_registers_loop env retries (attempt + 1)
  else (none, retries)
termination_by retries - attempt

/-- `ModbusCollector.read_holding_registers` (modbus_collector.py lines
85-158): if not connected, first attempt `connect()` and return `none`
(with zero wire reads) when that fails; otherwise run the retry loop. -/
def read_holding_registers (env : ModbusEnv) (retries : Nat) :
    Option (List Nat) × Nat :=
  if ¬ env.initiallyConnected ∧ ¬ env.connectResult 0 then (none, 0)
  else read_holding_registers_loop env retries 0

/-! ## Value decoding (`ModbusCollector.read_value`, modbus_collector.py lines 160-205) -/

/-- Value domain of an IEEE-754 binary32 reinterpretation: a finite rational,
a signed infinity, or NaN. -/
inductive F32 where
  | finite (q : ℚ)
  | inf
  | neginf
  | nan
  deriving DecidableEq, Repr

/-- IEEE-754 binary32 decoding of a 32-bit pattern (the semantics of Python's
`struct.unpack` with format `>f` applied to 4 bytes): sign bit 31, 8 exponent
bits, 23 fraction bits; exponent 255 gives infinity/NaN, exponent 0 gives a
subnormal `frac * 2^(-149)`, otherwise `(2^23 + frac) * 2^(e - 150)`. -/
def decodeF32 (bits : Nat) : F32 :=
  let sign : ℚ := if bits / 2 ^ 31 % 2 = 1 then -1 else 1
  let e : Nat := bits / 2 ^ 23 % 256
  let frac : Nat := bits % 2 ^ 23
  if e = 255 then
    if frac = 0 then (if bits / 2 ^ 31 % 2 = 1 then F32.neginf else F32.inf) else F32.nan
  else if e = 0 then
    F32.finite (sign * (frac : ℚ) / (2 : ℚ) ^ 149)
  else
    F32.finite (sign * ((2 ^ 23 + frac : ℕ) : ℚ) * (2 : ℚ) ^ e / (2 : ℚ) ^ 150)

/-- Python `struct.pack` with format `>HH`: succeeds exactly when both words
fit in 16 bits, yielding the 4 bytes of their big-endian concatenation;
otherwise raises `struct.error` (modelled as `none`). -/
def pack_HH (w0 w1 : Nat) : Option (List Nat) :=
  if w0 < 65536 ∧ w1 < 65536 then
    some [w0 / 256, w0 % 256, w1 / 256, w1 % 256]
  else none

/-- Python `struct.unpack` with format `>f`: succeeds exactly on a 4-byte
input, reinterpreting the bytes (big-endian) as a binary32 value; any other
length raises `struct.error` (modelled as `none`). -/
def unpack_f (bs : List Nat) : Option F32 :=
  match bs with
  | [b0, b1, b2, b3] => some (decodeF32 (((b0 * 256 + b1) * 256 + b2) * 256 + b3))
  | _ => none

/-- Multiplication of a decoded binary32 value by a finite scaling factor,
following IEEE-754 (Python `float` multiplication): infinities keep or flip
their sign with a nonzero factor, produce NaN with factor 0. -/
def F32.scale : F32 → ℚ → F32
  | .finite q, s => .finite (q * s)
  | .inf, s => if 0 < s then .inf else if s < 0 then .neginf else .nan
  | .neginf, s => if 0 < s then .neginf else if s < 0 then .inf else .nan
  | .nan, _ => .nan

/-- The register-to-value conversion of `ModbusCollector.read_value`
(modbus_collector.py lines 184-205), applied to a successfully read register
list. `Except.error ()` models an uncaught exception (an `IndexError` from
`registers[0]`/`registers[1]` on a too-short list is not a `struct.error` and
propagates); `Except.ok none` models the logged `return None` of the
`struct.error` handler; `Except.ok (some v)` is the scaled value. `count == 1`
takes the single word directly, `count == 2` packs the two words big-endian
and reinterprets them as binary32, any other count sums the words. -/
def read_value_decode (registers : List Nat) (count : Nat) (scaling : ℚ) :
    Except Unit (Option F32) :=
  if count = 1 then
    match registers with
    | r :: _ => Except.ok (some (F32.scale (F32.finite (r : ℚ)) scaling))
    | [] => Except.error ()
  else if count = 2 then
    match registers with
    | r0 :: r1 :: _ =>
      match pack_HH r0 r1 with
      | some bytesVal =>
        match unpack_f bytesVal with
        | some v => Except.ok (some (F32.scale v scaling))
        | none => Except.ok none
      | none => Except.ok none
    | _ => Except.error ()
  else
    Except.ok (some (F32.scale (F32.finite (registers.sum : ℚ)) scaling))

/-- `ModbusCollector.read_value` (modbus_collector.py lines 160-205):
read the holding registers, return `none` when the read failed, and
otherwise decode and scale. -/
def read_value (env : ModbusEnv) (retries count : Nat) (scaling : ℚ) :
    Except Unit (Option F32) :=
  match (read_holding_registers env retries).1 with
  | none => Except.ok none
  | some registers => read_value_decode registers count scaling

/-! ## Notification service (src/backend/src/services/notification_service.py)
and its data model (src/backend/src/models/notification.py, user.py).
Timestamps are seconds since the epoch (`datetime.utcnow()` modelled as an
explicit `now : Int` parameter); uuid4 freshness is modelled by a counter. -/

inductive NotificationType where
  | device_disconnect
  | device_alert
  | system
  deriving DecidableEq, Repr

inductive NotificationSeverity where
  | info
  | warning
  | error
  | critical
  deriving DecidableEq, Repr

inductive UserRole where
  | owner
  | admin
  | read_only
  deriving DecidableEq, Repr

structure User where
  uid : Nat
  role : UserRole
  deriving DecidableEq, Repr

structure Notification where
  nid : Nat
  ntype : NotificationType
  severity : NotificationSeverity
  user_id : Nat
  device_id : Option Nat
  created_at : Int
  read_at : Option Int
  dismissed_at : Option Int
  deriving DecidableEq, Repr

/-- The relational store as seen by the notification service. -/
structure Db where
  users : List User
  notifications : List Notification
  nextId : Nat
  deriving DecidableEq, Repr

/-- The duplicate filter of `create_notification`
(notification_service.py lines 55-63): same user, same device,
DEVICE_DISCONNECT type, created within the last 5 minutes (300 s, boundary
inclusive: `created_at >= now - 5min`), and not dismissed. -/
def is_recent_disconnect_dup (now : Int) (user_id device_id : Nat)
    (n : Notification) : Bool :=
  n.user_id == user_id && n.device_id == some device_id &&
  n.ntype == NotificationType.device_disconnect &&
  decide (n.created_at ≥ now - 300) && n.dismissed_at == none

/-- The `.first()` duplicate query of `create_notification`. -/
def find_duplicate (db : Db) (now : Int) (user_id device_id : Nat) :
    Option Notification :=
  db.notifications.find? (is_recent_disconnect_dup now user_id device_id)

/-- Construction and insertion of a fresh notification row
(notification_service.py lines 70-83). -/
def insert_notification (db : Db) (now : Int) (user_id : Nat)
    (ntype : NotificationType) (severity : NotificationSeverity)
    (device_id : Option Nat) : Notification × Db :=
  let n : Notification :=
    ⟨db.nextId, ntype, severity, user_id, device_id, now, none, none⟩
  (n, { db with notifications := db.notifications ++ [n], nextId := db.nextId + 1 })

/-- `create_notification` (notification_service.py lines 17-87): raise
ValueError when the recipient user does not exist; for a DEVICE_DISCONNECT
notification with a device id, return an existing non-dismissed duplicate
from the last 5 minutes instead of creating; otherwise insert a new row. -/
def create_notification (db : Db) (now : Int) (user_id : Nat)
    (ntype : NotificationType) (severity : NotificationSeverity)
    (device_id : Option Nat) : Except String (Notification × Db) :=
  if (db.users.find? (fun u => u.uid == user_id)).isSome = false then
    Except.error "User not found"
  else
    match device_id with
    | some d =>
      if ntype = NotificationType.device_disconnect then
        match find_duplicate db now user_id d with
        | some dup => Except.ok (dup, db)
        | none => Except.ok (insert_notification db now user_id ntype severity device_id)
      else Except.ok (insert_notification db now user_id ntype severity device_id)
    | none => Except.ok (insert_notification db now user_id ntype severity device_id)

/-- `get_admin_and_owner_user_ids` (notification_service.py lines 266-283). -/
def get_admin_and_owner_user_ids (db : Db) : List Nat :=
  (db.users.filter (fun u => u.role == UserRole.admin || u.role == UserRole.owner)).map
    (fun u => u.uid)

/-- The per-recipient loop of `create_device_disconnect_notification`
(notification_service.py lines 321-337): a creation failure for one
recipient is logged and skipped, the loop continues with the rest. -/
def fanout_disconnect (now : Int) (device_id : Nat) :
    List Nat → Db → List Notification × Db
  | [], db => ([], db)
  | u :: rest, db =>
    match create_notification db now u NotificationType.device_disconnect
        NotificationSeverity.error (some device_id) with
    | Except.ok (n, db₁) =>
      let r := fanout_disconnect now device_id rest db₁
      (n :: r.1, r.2)
    | Except.error _ => fanout_disconnect now device_id rest db

/-- `create_device_disconnect_notification` (notification_service.py lines
286-341): collect admin/owner recipients; when there are none, a logged
no-op returning the empty list; otherwise fan out to each recipient. -/
def create_device_disconnect_notification (db : Db) (now : Int)
    (device_id : Nat) : List Notification × Db :=
  let ids := get_admin_and_owner_user_ids db
  if ids.isEmpty then ([], db)
  else fanout_disconnect now device_id ids db

/-! ## Device manager (src/backend/src/collectors/device_manager.py) -/

inductive DeviceStatus where
  | online
  | offline
  | error
  deriving DecidableEq, Repr

/-- The fields of a device configuration record that the collection loop
reads or mutates. -/
structure DeviceRec where
  did : Nat
  status : DeviceStatus
  sampling_interval : Nat
  last_reading_at : Option Int
  deriving DecidableEq, Repr

/-- The in-memory registries of `DeviceManager`: the device ids holding an
active collection task (`self.tasks` keys) and those holding a collector
session (`self.collectors` keys). -/
structure ManagerState where
  tasks : List Nat
  collectors : List Nat
  deriving DecidableEq, Repr

/-- `DeviceManager.add_device` (device_manager.py lines 66-95): a logged
no-op when the device is already monitored or its configuration record no
longer exists (`dbDevices` is the set of device ids present in the store);
otherwise a task is registered for it. -/
def add_device (dbDevices : List Nat) (s : ManagerState) (id : Nat) : ManagerState :=
  if id ∈ s.tasks then s
  else if id ∈ dbDevices then { s with tasks := s.tasks ++ [id] }
  else s

/-- `DeviceManager.remove_device` (device_manager.py lines 97-122): a logged
no-op when the device is not monitored; otherwise its task entry is popped
and its collector session, when present, is removed. -/
def remove_device (s : ManagerState) (id : Nat) : ManagerState :=
  if id ∈ s.tasks then
    { tasks := s.tasks.erase id, collectors := s.collectors.erase id }
  else s

/-- `max_failures_before_notify` of `_collection_loop` (device_manager.py
line 138). -/
def max_failures_before_notify : Nat := 3

/-- `reconnection_delay` of `_collection_loop` (device_manager.py line 139),
in seconds. -/
def reconnection_delay : Nat := 60

/-- What the collector/body produced during one iteration of
`_collection_loop`: a decoded value, an absent value (`read_value` returned
None), or an unexpected exception raised inside the `try` body. -/
inductive CollectEvent where
  | value (v : ℚ)
  | noValue
  | exc
  deriving DecidableEq, Repr

/-- How one iteration of `_collection_loop` ends: the task terminates
(`break`, device record gone), or the loop suspends for the given number of
seconds and continues. -/
inductive IterOutcome where
  | terminated
  | continued (sleepSeconds : Nat)
  deriving DecidableEq, Repr

/-- The observable result of one iteration of `_collection_loop`. -/
structure IterResult where
  consecutive_failures : Nat
  devices : List DeviceRec
  new_readings : List (Nat × Int × ℚ)
  notifDb : Db
  notified : Bool
  outcome : IterOutcome
  deriving DecidableEq, Repr

/-- `device.status = DeviceStatus.ERROR; db.commit()` for one device. -/
def set_device_error (devices : List DeviceRec) (id : Nat) : List DeviceRec :=
  devices.map (fun dv =>
    if dv.did == id then { dv with status := DeviceStatus.error } else dv)

/-- `device.status = ONLINE; device.last_reading_at = utcnow()` for one
device. -/
def set_device_online (devices : List DeviceRec) (id : Nat) (now : Int) :
    List DeviceRec :=
  devices.map (fun dv =>
    if dv.did == id then
      { dv with status := DeviceStatus.online, last_reading_at := some now }
    else dv)

/-- One iteration of `DeviceManager._collection_loop` (device_manager.py
lines 141-251): re-fetch the device record and terminate when it is gone;
on a value, append a reading, set status online, reset the failure counter
and sleep for the sampling interval; on an absent value, increment the
counter, set status error, invoke the disconnect-notification fan-out once
the counter has reached `max_failures_before_notify`, and sleep for the
fixed `reconnection_delay`; on an unexpected exception, increment the
counter, set status error (the device was found this iteration) and sleep
for the fixed `reconnection_delay` — without invoking the fan-out. -/
def collection_iteration (devices : List DeviceRec) (notifDb : Db)
    (device_id : Nat) (consecutive_failures : Nat) (now : Int)
    (event : CollectEvent) : IterResult :=
  match devices.find? (fun dv => dv.did == device_id) with
  | none =>
    ⟨consecutive_failures, devices, [], notifDb, false, IterOutcome.terminated⟩
  | some device =>
    match event with
    | CollectEvent.value v =>
      ⟨0, set_device_online devices device_id now, [(device_id, now, v)],
        notifDb, false, IterOutcome.continued device.sampling_interval⟩
    | CollectEvent.noValue =>
      if consecutive_failures + 1 ≥ max_failures_before_notify then
        ⟨consecutive_failures + 1, set_device_error devices device_id, [],
          (create_device_disconnect_notification notifDb now device_id).2, true,
          IterOutcome.continued reconnection_delay⟩
      else
        ⟨consecutive_failures + 1, set_device_error devices device_id, [],
          notifDb, false, IterOutcome.continued reconnection_delay⟩
    | CollectEvent.exc =>
      ⟨consecutive_failures + 1, set_device_error devices device_id, [],
        notifDb, false, IterOutcome.continued reconnection_delay⟩

end DDMS

namespace DDMS

/-! ## Theorems for C1 -/

/-- **C1.** The status evaluator of `get_device_status` agrees everywhere with
the specification's first-match-wins chain (critical on value < crit_lower,
else critical on value > crit_upper, else warning on value < warn_lower, else
warning on value > warn_upper, else normal; absent thresholds skipped), and on
the spec's worked example `{warn_lower:10, warn_upper:30, crit_lower:0,
crit_upper:40}` we get 20→normal, 35→warning, 5→warning, 45→critical,
−5→critical, and exactly 30→normal (equality at a bound does not trigger the
tighter band). -/
theorem get_device_status_matches_spec :
    (∀ (value : ℚ) (cl cu wl wu : Option ℚ),
      get_device_status_core value cl cu wl wu = evaluate_spec value cl cu wl wu) ∧
    get_device_status_core 20 (some 0) (some 40) (some 10) (some 30) = Status.normal ∧
    get_device_status_core 35 (some 0) (some 40) (some 10) (some 30) = Status.warning ∧
    get_device_status_core 5 (some 0) (some 40) (some 10) (some 30) = Status.warning ∧
    get_device_status_core 45 (some 0) (some 40) (some 10) (some 30) = Status.critical ∧
    get_device_status_core (-5) (some 0) (some 40) (some 10) (some 30) = Status.critical ∧
    get_device_status_core 30 (some 0) (some 40) (some 10) (some 30) = Status.normal := by
  refine ⟨?_, by decide, by decide, by decide, by decide, by decide, by decide⟩
  intro value cl cu wl wu
  rcases cl with _ | c₁ <;> rcases cu with _ | c₂ <;>
    rcases wl with _ | w₁ <;> rcases wu with _ | w₂ <;>
    simp [get_device_status_core, evaluate_spec, evaluate_spec.evaluate_spec_cu,
      evaluate_spec.evaluate_spec_wl, evaluate_spec.evaluate_spec_wu]

/-! ## Theorems for C10 -/

/-- **C10.** `create_device`'s threshold validation rejects (raises ValueError)
exactly when warning_lower ≥ warning_upper, or critical_lower ≥
critical_upper, or critical_lower ≥ warning_lower, or critical_upper ≤
warning_upper — each check applying only when both bounds are set — so an
accepted configuration has its critical band strictly outside its warning
band; e.g. `{wl:10, wu:30, cl:0, cu:40}` is accepted while `{wl:10, wu:30,
cl:10, cu:40}` and `{wl:10, wu:30, cl:0, cu:30}` are rejected. -/
theorem create_device_threshold_validation :
    (∀ (wl wu cl cu : Option ℚ),
      thresholds_accepted wl wu cl cu = !(thresholds_inconsistent_spec wl wu cl cu)) ∧
    thresholds_accepted (some 10) (some 30) (some 0) (some 40) = true ∧
    thresholds_accepted (some 10) (some 30) (some 10) (some 40) = false ∧
    thresholds_accepted (some 10) (some 30) (some 0) (some 30) = false ∧
    thresholds_accepted (some 10) (some 10) none none = false := by
  refine ⟨?_, by decide, by decide, by decide, by decide⟩
  intro wl wu cl cu
  simp only [thresholds_accepted, validate_thresholds, thresholds_inconsistent_spec,
    Bool.not_or]
  split_ifs <;> simp_all

/-! ## Theorems for C3 -/

/-- If every wire read from `start` up to the budget fails, the retry loop
returns `none` after exactly `retries` wire reads in total. -/
theorem read_loop_all_fail (env : ModbusEnv) (retries : Nat) :
    ∀ n start, retries - start = n →
      (∀ j, start ≤ j → j < retries → (env.readResult j).isOk = false) →
      read_holding_registers_loop env retries start = (none, retries) := by
  intro n
  induction n with
  | zero =>
    intro start h _
    rw [read_holding_registers_loop]
    have hs : ¬ start < retries := by omega
    simp [hs]
  | succ n ih =>
    intro start h hf
    rw [read_holding_registers_loop]
    by_cases hs : start < retries
    · simp only [hs, if_true]
      have hfail := hf start le_rfl hs
      cases hr : env.readResult start with
      | ok regs => rw [hr] at hfail; simp [ReadOutcome.isOk] at hfail
      | errResp =>
        exact ih (start + 1) (by omega) (fun j hj1 hj2 => hf j (by omega) hj2)
      | modbusExc =>
        exact ih (start + 1) (by omega) (fun j hj1 hj2 => hf j (by omega) hj2)
      | otherExc =>
        exact ih (start + 1) (by omega) (fun j hj1 hj2 => hf j (by omega) hj2)
    · simp [hs]

/-- If the first successful wire read at or after `start` is attempt `k`,
the retry loop returns its registers after exactly `k + 1` wire reads. -/
theorem read_loop_succeeds (env : ModbusEnv) (retries : Nat) :
    ∀ n start k regs, retries - start = n → start ≤ k → k < retries →
      env.readResult k = ReadOutcome.ok regs →
      (∀ j, start ≤ j → j < k → (env.readResult j).isOk = false) →
      read_holding_registers_loop env retries start = (some regs, k + 1) := by
  intro n
  induction n with
  | zero =>
    intro start k regs h hk1 hk2 _ _
    omega
  | succ n ih =>
    intro start k regs h hk1 hk2 hok hf
    rw [read_holding_registers_loop]
    have hs : start < retries := by omega
    simp only [hs, if_true]
    rcases Nat.eq_or_lt_of_le hk1 with heq | hlt
    · subst heq
      rw [hok]
    · have hfail := hf start le_rfl hlt
      cases hr : env.readResult start with
      | ok regs₂ => rw [hr] at hfail; simp [ReadOutcome.isOk] at hfail
      | errResp =>
        exact ih (start + 1) k regs (by omega) (by omega) hk2 hok
          (fun j hj1 hj2 => hf j (by omega) hj2)
      | modbusExc =>
        exact ih (start + 1) k regs (by omega) (by omega) hk2 hok
          (fun j hj1 hj2 => hf j (by omega) hj2)
      | otherExc =>
        exact ih (start + 1) k regs (by omega) (by omega) hk2 hok
          (fun j hj1 hj2 => hf j (by omega) hj2)

/-- **C3.** `read_holding_registers`: when not connected, a failed initial
`connect()` returns `none` with zero wire reads; otherwise the loop performs
at most `retries` wire reads (each erroring response, exception, or failed
reconnection consuming one attempt): if the first success is the 0-based
attempt `k < retries` the ordered register list is returned after exactly
`k + 1` wire reads, and if every attempt fails `none` is returned after
exactly `retries` wire reads. -/
theorem read_registers_retry_semantics :
    (∀ (env : ModbusEnv) (retries : Nat),
        env.initiallyConnected = false → env.connectResult 0 = false →
        read_holding_registers env retries = (none, 0)) ∧
    (∀ (env : ModbusEnv) (retries k : Nat) (regs : List Nat),
        (env.initiallyConnected = true ∨ env.connectResult 0 = true) →
        k < retries → env.readResult k = ReadOutcome.ok regs →
        (∀ j, j < k → (env.readResult j).isOk = false) →
        read_holding_registers env retries = (some regs, k + 1)) ∧
    (∀ (env : ModbusEnv) (retries : Nat),
        (env.initiallyConnected = true ∨ env.connectResult 0 = true) →
        (∀ j, j < retries → (env.readResult j).isOk = false) →
        read_holding_registers env retries = (none, retries)) := by
  refine ⟨?_, ?_, ?_⟩
  · intro env retries h1 h2
    simp [read_holding_registers, h1, h2]
  · intro env retries k regs hconn hk hok hf
    have hcond : ¬ (¬ env.initiallyConnected ∧ ¬ env.connectResult 0) := by
      rcases hconn with h | h <;> simp [h]
    simp only [read_holding_registers, hcond, if_false]
    exact read_loop_succeeds env retries (retries - 0) 0 k regs rfl (Nat.zero_le k) hk hok
      (fun j _ hj2 => hf j hj2)
  · intro env retries hconn hf
    have hcond : ¬ (¬ env.initiallyConnected ∧ ¬ env.connectResult 0) := by
      rcases hconn with h | h <;> simp [h]
    simp only [read_holding_registers, hcond, if_false]
    exact read_loop_all_fail env retries (retries - 0) 0 rfl (fun j _ hj2 => hf j hj2)

/-! ## Theorems for C5 and C9 -/

/-- **C5.** For every successful register read, `read_value` decodes the
returned list as follows: `count == 1` takes the single 16-bit word as an
unsigned integer; `count == 2` concatenates the two words big-endian (word0
high, word1 low) and reinterprets the 32 bits as an IEEE-754 single-precision
float — and the bit pattern `0x42C80000` of 100.0 indeed decodes to 100;
any other count sums the words. The decoded value is multiplied by
`scaling_factor` before being returned. -/
theorem read_value_decoding :
    (∀ (env : ModbusEnv) (retries count : Nat) (scaling : ℚ) (regs : List Nat),
      (read_holding_registers env retries).1 = some regs →
      read_value env retries count scaling = read_value_decode regs count scaling) ∧
    (∀ (r : Nat) (rest : List Nat) (scaling : ℚ),
      read_value_decode (r :: rest) 1 scaling =
        Except.ok (some (F32.finite ((r : ℚ) * scaling)))) ∧
    (∀ (r0 r1 : Nat) (rest : List Nat) (scaling : ℚ), r0 < 65536 → r1 < 65536 →
      read_value_decode (r0 :: r1 :: rest) 2 scaling =
        Except.ok (some (F32.scale (decodeF32 (r0 * 65536 + r1)) scaling))) ∧
    (∀ (registers : List Nat) (count : Nat) (scaling : ℚ), count ≠ 1 → count ≠ 2 →
      read_value_decode registers count scaling =
        Except.ok (some (F32.finite ((registers.sum : ℚ) * scaling)))) ∧
    decodeF32 0x42C80000 = F32.finite 100 := by
  refine ⟨?_, ?_, ?_, ?_, by norm_num [decodeF32]⟩
  · intro env retries count scaling regs h
    simp [read_value, h]
  · intro r rest scaling
    simp [read_value_decode, F32.scale]
  · intro r0 r1 rest scaling h0 h1
    have hbytes : ((r0 / 256 * 256 + r0 % 256) * 256 + r1 / 256) * 256 + r1 % 256 =
        r0 * 65536 + r1 := by omega
    simp [read_value_decode, pack_HH, unpack_f, h0, h1, hbytes]
  · intro registers count scaling h1 h2
    simp [read_value_decode, h1, h2, F32.scale]

/-- Witness for C5: two registers whose big-endian concatenation is the
IEEE-754 bit pattern for 100.0 (`[0x42C8, 0x0000]`) decode to 100 after
scaling by 1. -/
theorem read_value_decoding_witness :
    read_value_decode [17096, 0] 2 1 = Except.ok (some (F32.finite 100)) := by
  have h := read_value_decoding.2.2.1 17096 0 [] 1 (by norm_num) (by norm_num)
  rw [h]
  norm_num [decodeF32, F32.scale]

/-- **C9.** The `count == 2` decode path is total on register words produced
by a successful read: for any two in-range 16-bit words, `struct.pack` with
format `>HH` succeeds with 4 bytes, `struct.unpack` with format `>f` on those
bytes succeeds (possibly yielding NaN or an infinity), so the
malformed-bit-pattern error branch is unreachable and `read_value_decode`
with `count == 2` returns some value rather than absent. -/
theorem count2_decode_total :
    ∀ (w0 w1 : Nat) (rest : List Nat) (scaling : ℚ), w0 < 65536 → w1 < 65536 →
      (∃ bs, pack_HH w0 w1 = some bs ∧ bs.length = 4 ∧ (unpack_f bs).isSome = true) ∧
      ∃ v, read_value_decode (w0 :: w1 :: rest) 2 scaling = Except.ok (some v) := by
  intro w0 w1 rest scaling h0 h1
  constructor
  · refine ⟨[w0 / 256, w0 % 256, w1 / 256, w1 % 256], ?_, rfl, rfl⟩
    simp [pack_HH, h0, h1]
  · refine ⟨F32.scale
      (decodeF32 (((w0 / 256 * 256 + w0 % 256) * 256 + w1 / 256) * 256 + w1 % 256))
      scaling, ?_⟩
    simp [read_value_decode, pack_HH, unpack_f, h0, h1]

/-- Witness for C9: the all-ones pattern `[0xFFFF, 0xFFFF]` (a NaN bit
pattern) still decodes to some value. -/
theorem count2_decode_total_witness :
    ∃ v, read_value_decode [65535, 65535] 2 1 = Except.ok (some v) :=
  (count2_decode_total 65535 65535 [] 1 (by norm_num) (by norm_num)).2

/-! ## Theorems for C4 -/

/-- The duplicate filter is antitone in `now`: a record counting as a recent
duplicate at a later time also counts at any earlier time. -/
theorem is_recent_dup_mono {t t' : Int} (h : t ≤ t') (u d : Nat) (n : Notification) :
    is_recent_disconnect_dup t' u d n = true → is_recent_disconnect_dup t u d n = true := by
  simp only [is_recent_disconnect_dup, Bool.and_eq_true, beq_iff_eq, decide_eq_true_eq]
  intro hyp
  exact ⟨⟨⟨⟨hyp.1.1.1.1, hyp.1.1.1.2⟩, hyp.1.1.2⟩, by omega⟩, hyp.2⟩

/-- **C4.** `create_notification` for a DEVICE_DISCONNECT with a device id:
when a non-dismissed DEVICE_DISCONNECT record for the same (user, device)
created within the last 5 minutes exists, that record is returned and the
store is unchanged; when none exists a new record is inserted; consequently,
two calls within the 5-minute window yield exactly one new record — the
second call returns the record created by the first and leaves the store
unchanged. -/
theorem create_notification_dedup :
    (∀ (db : Db) (now : Int) (u : Nat) (sev : NotificationSeverity) (d : Nat)
        (dup : Notification),
      (db.users.find? (fun x => x.uid == u)).isSome = true →
      find_duplicate db now u d = some dup →
      create_notification db now u NotificationType.device_disconnect sev (some d) =
        Except.ok (dup, db)) ∧
    (∀ (db : Db) (now : Int) (u : Nat) (sev : NotificationSeverity) (d : Nat),
      (db.users.find? (fun x => x.uid == u)).isSome = true →
      find_duplicate db now u d = none →
      create_notification db now u NotificationType.device_disconnect sev (some d) =
        Except.ok (insert_notification db now u NotificationType.device_disconnect sev
          (some d))) ∧
    (∀ (db : Db) (t t' : Int) (u : Nat) (sev sev' : NotificationSeverity) (d : Nat),
      (db.users.find? (fun x => x.uid == u)).isSome = true →
      find_duplicate db t u d = none → t ≤ t' → t' ≤ t + 300 →
      ∃ (n : Notification) (db₁ : Db),
        create_notification db t u NotificationType.device_disconnect sev (some d) =
          Except.ok (n, db₁) ∧
        db₁.notifications = db.notifications ++ [n] ∧
        create_notification db₁ t' u NotificationType.device_disconnect sev' (some d) =
          Except.ok (n, db₁)) := by
  have hdup : ∀ (db : Db) (now : Int) (u : Nat) (sev : NotificationSeverity) (d : Nat)
      (dup : Notification),
      (db.users.find? (fun x => x.uid == u)).isSome = true →
      find_duplicate db now u d = some dup →
      create_notification db now u NotificationType.device_disconnect sev (some d) =
        Except.ok (dup, db) := by
    intro db now u sev d dup hu hd
    simp [create_notification, hu, hd]
  have hnew : ∀ (db : Db) (now : Int) (u : Nat) (sev : NotificationSeverity) (d : Nat),
      (db.users.find? (fun x => x.uid == u)).isSome = true →
      find_duplicate db now u d = none →
      create_notification db now u NotificationType.device_disconnect sev (some d) =
        Except.ok (insert_notification db now u NotificationType.device_disconnect sev
          (some d)) := by
    intro db now u sev d hu hd
    simp [create_notification, hu, hd]
  refine ⟨hdup, hnew, ?_⟩
  intro db t t' u sev sev' d hu hd htt htw
  set n : Notification :=
    ⟨db.nextId, NotificationType.device_disconnect, sev, u, some d, t, none, none⟩ with hn
  set db₁ : Db :=
    { db with notifications := db.notifications ++ [n], nextId := db.nextId + 1 } with hdb₁
  refine ⟨n, db₁, hnew db t u sev d hu hd, rfl, ?_⟩
  have hu₁ : (db₁.users.find? (fun x => x.uid == u)).isSome = true := hu
  have hstill : is_recent_disconnect_dup t' u d n = true := by
    rw [hn]
    simp [is_recent_disconnect_dup]
    omega
  have hfind : find_duplicate db₁ t' u d = some n := by
    have hold : db.notifications.find? (is_recent_disconnect_dup t' u d) = none := by
      rw [List.find?_eq_none]
      intro x hx hpx
      have := List.find?_eq_none.mp hd x hx
      exact this (is_recent_dup_mono htt u d x hpx)
    simp only [find_duplicate, hdb₁, List.find?_append, hold, Option.none_or]
    simp [hstill]
  exact hdup db₁ t' u sev' d n hu₁ hfind

/-- Witness for C4: a fresh store with one admin user; the first call at
t = 1000 creates a record, the second call 4 minutes later (t = 1240)
returns the same record and leaves the store unchanged. -/
theorem create_notification_dedup_witness :
    ∃ (n : Notification) (db₁ : Db),
      create_notification ⟨[⟨1, UserRole.admin⟩], [], 0⟩ 1000 1
          NotificationType.device_disconnect NotificationSeverity.error (some 7) =
        Except.ok (n, db₁) ∧
      db₁.notifications = [] ++ [n] ∧
      create_notification db₁ 1240 1
          NotificationType.device_disconnect NotificationSeverity.critical (some 7) =
        Except.ok (n, db₁) :=
  create_notification_dedup.2.2 ⟨[⟨1, UserRole.admin⟩], [], 0⟩ 1000 1240 1
    NotificationSeverity.error NotificationSeverity.critical 7 rfl rfl
    (by omega) (by omega)

/-! ## Theorems for C7 -/

/-- A successful `create_notification` leaves the user table unchanged and
returns a record addressed to the requested recipient. -/
theorem create_notification_ok_cases (db : Db) (now : Int) (u : Nat)
    (ntype : NotificationType) (sev : NotificationSeverity) (d : Option Nat)
    (n : Notification) (db' : Db)
    (h : create_notification db now u ntype sev d = Except.ok (n, db')) :
    db'.users = db.users ∧ n.user_id = u := by
  unfold create_notification at h
  split at h
  · exact absurd h (by simp)
  · split at h
    · split at h
      · split at h
        · rename_i dup hfd
          obtain ⟨hn, hdb⟩ := Prod.mk.injEq .. ▸ Except.ok.inj h
          subst hn hdb
          have hp := List.find?_some hfd
          simp only [is_recent_disconnect_dup, Bool.and_eq_true, beq_iff_eq] at hp
          exact ⟨rfl, hp.1.1.1.1⟩
        · obtain ⟨hn, hdb⟩ := Prod.mk.injEq .. ▸ Except.ok.inj h
          subst hn hdb
          exact ⟨rfl, rfl⟩
      · obtain ⟨hn, hdb⟩ := Prod.mk.injEq .. ▸ Except.ok.inj h
        subst hn hdb
        exact ⟨rfl, rfl⟩
    · obtain ⟨hn, hdb⟩ := Prod.mk.injEq .. ▸ Except.ok.inj h
      subst hn hdb
      exact ⟨rfl, rfl⟩

/-- `create_notification` succeeds whenever the recipient exists. -/
theorem create_notification_ok_of_user (db : Db) (now : Int) (u : Nat)
    (sev : NotificationSeverity) (d : Nat)
    (hu : (db.users.find? (fun x => x.uid == u)).isSome = true) :
    ∃ n db₁, create_notification db now u NotificationType.device_disconnect sev
      (some d) = Except.ok (n, db₁) := by
  unfold create_notification
  simp only [hu]
  cases hfd : find_duplicate db now u d with
  | some dup => exact ⟨dup, db, by simp [hfd]⟩
  | none =>
    exact ⟨(insert_notification db now u NotificationType.device_disconnect sev
        (some d)).1,
      (insert_notification db now u NotificationType.device_disconnect sev
        (some d)).2, by simp [hfd]⟩

/-- Every recipient in the fan-out list that exists in the user table
receives a notification, regardless of failures for other recipients. -/
theorem fanout_reaches_existing (now : Int) (d : Nat) :
    ∀ (ids : List Nat) (db : Db) (u : Nat), u ∈ ids →
      (db.users.find? (fun x => x.uid == u)).isSome = true →
      ∃ n ∈ (fanout_disconnect now d ids db).1, n.user_id = u := by
  intro ids
  induction ids with
  | nil => intro db u hmem; exact absurd hmem (List.not_mem_nil u)
  | cons v rest ih =>
    intro db u hmem hu
    rcases List.mem_cons.mp hmem with heq | htail
    · subst heq
      obtain ⟨n, db₁, hc⟩ :=
        create_notification_ok_of_user db now u NotificationSeverity.error d hu
      have huid := (create_notification_ok_cases db now u _ _ _ n db₁ hc).2
      refine ⟨n, ?_, huid⟩
      simp only [fanout_disconnect, hc]
      exact List.mem_cons_self n _
    · cases hc : create_notification db now v NotificationType.device_disconnect
          NotificationSeverity.error (some d) with
      | ok p =>
        obtain ⟨n₀, db₁⟩ := p
        have husers := (create_notification_ok_cases db now v _ _ _ n₀ db₁ hc).1
        have hu₁ : (db₁.users.find? (fun x => x.uid == u)).isSome = true := by
          rw [husers]; exact hu
        obtain ⟨n, hn, huid⟩ := ih db₁ u htail hu₁
        refine ⟨n, ?_, huid⟩
        simp only [fanout_disconnect, hc]
        exact List.mem_cons_of_mem n₀ hn
      | error e =>
        obtain ⟨n, hn, huid⟩ := ih db u htail hu
        refine ⟨n, ?_, huid⟩
        simp only [fanout_disconnect, hc]
        exact hn

/-- **C7.** Disconnect-notification fan-out is resilient: when no admin/owner
recipients exist, `create_device_disconnect_notification` is a no-op
returning the empty list and leaving the store unchanged; and in the
per-recipient loop a creation failure for one recipient is skipped without
aborting the rest — every recipient that exists in the user table still
receives a notification addressed to them. -/
theorem disconnect_fanout_resilient :
    (∀ (db : Db) (now : Int) (d : Nat),
      get_admin_and_owner_user_ids db = [] →
      create_device_disconnect_notification db now d = ([], db)) ∧
    (∀ (now : Int) (d : Nat) (ids : List Nat) (db : Db) (u : Nat),
      u ∈ ids →
      (db.users.find? (fun x => x.uid == u)).isSome = true →
      ∃ n ∈ (fanout_disconnect now d ids db).1, n.user_id = u) := by
  constructor
  · intro db now d h
    simp [create_device_disconnect_notification, h]
  · exact fanout_reaches_existing

/-- Witness for C7: with recipient list `[1, 2, 3]` against a directory
holding only users 1 and 3 (creation for user 2 fails), user 3 still gets a
notification; and a store whose only user is read-only yields the logged
no-op `([], db)`. -/
theorem disconnect_fanout_resilient_witness :
    (∃ n ∈ (fanout_disconnect 1000 7 [1, 2, 3]
        ⟨[⟨1, UserRole.admin⟩, ⟨3, UserRole.owner⟩], [], 0⟩).1, n.user_id = 3) ∧
    create_device_disconnect_notification ⟨[⟨9, UserRole.read_only⟩], [], 0⟩ 5 7 =
      ([], ⟨[⟨9, UserRole.read_only⟩], [], 0⟩) :=
  ⟨disconnect_fanout_resilient.2 1000 7 [1, 2, 3]
      ⟨[⟨1, UserRole.admin⟩, ⟨3, UserRole.owner⟩], [], 0⟩ 3 (by simp) rfl,
   disconnect_fanout_resilient.1 ⟨[⟨9, UserRole.read_only⟩], [], 0⟩ 5 7 rfl⟩

/-! ## Theorems for C6 -/

/-- **C6.** At most one active polling task per device id: `add_device` is a
no-op when the device is already monitored or when its configuration record
no longer exists, calling it twice without an intervening `remove_device`
leaves the registry exactly as after one call, a registry holding the id at
most once still holds it at most once afterwards, and `remove_device` is a
no-op when the device is not monitored. -/
theorem add_device_single_task :
    (∀ (db : List Nat) (s : ManagerState) (id : Nat), id ∈ s.tasks →
      add_device db s id = s) ∧
    (∀ (db : List Nat) (s : ManagerState) (id : Nat), id ∉ db →
      add_device db s id = s) ∧
    (∀ (db : List Nat) (s : ManagerState) (id : Nat),
      add_device db (add_device db s id) id = add_device db s id) ∧
    (∀ (db : List Nat) (s : ManagerState) (id : Nat),
      s.tasks.count id ≤ 1 → (add_device db s id).tasks.count id ≤ 1) ∧
    (∀ (s : ManagerState) (id : Nat), id ∉ s.tasks → remove_device s id = s) := by
  refine ⟨?_, ?_, ?_, ?_, ?_⟩
  · intro db s id h
    simp [add_device, h]
  · intro db s id h
    by_cases h1 : id ∈ s.tasks
    · simp [add_device, h1]
    · simp [add_device, h1, h]
  · intro db s id
    by_cases h1 : id ∈ s.tasks
    · simp [add_device, h1]
    · by_cases h2 : id ∈ db
      · simp [add_device, h1, h2]
      · simp [add_device, h1, h2]
  · intro db s id h
    unfold add_device
    split_ifs with h1 h2
    · exact h
    · have hz : s.tasks.count id = 0 := List.count_eq_zero.mpr h1
      simp [List.count_append, hz, List.count_singleton]
    · exact h
  · intro s id h
    simp [remove_device, h]

/-- Witness for C6 at concrete registries: adding an already-monitored id,
adding an id with no configuration record, and removing an unmonitored id
are all no-ops, and adding a fresh id keeps its task count at one. -/
theorem add_device_single_task_witness :
    add_device [5] ⟨[5], []⟩ 5 = ⟨[5], []⟩ ∧
    add_device [] ⟨[], []⟩ 5 = ⟨[], []⟩ ∧
    (add_device [5] ⟨[], []⟩ 5).tasks.count 5 ≤ 1 ∧
    remove_device ⟨[], []⟩ 5 = ⟨[], []⟩ :=
  ⟨add_device_single_task.1 [5] ⟨[5], []⟩ 5 (by simp),
   add_device_single_task.2.1 [] ⟨[], []⟩ 5 (by simp),
   add_device_single_task.2.2.2.1 [5] ⟨[], []⟩ 5 (by simp),
   add_device_single_task.2.2.2.2 ⟨[], []⟩ 5 (by simp)⟩

/-! ## Theorems for C8 -/

/-- **C8.** When the device's configuration record no longer exists at the
start of an iteration, the collection task terminates: no exception escapes,
the failure counter is unchanged, no reading is stored, no device status is
modified and no notification is made. -/
theorem config_gone_terminates :
    ∀ (devices : List DeviceRec) (notifDb : Db) (id cf : Nat) (now : Int)
      (ev : CollectEvent),
      devices.find? (fun dv => dv.did == id) = none →
      collection_iteration devices notifDb id cf now ev =
        ⟨cf, devices, [], notifDb, false, IterOutcome.terminated⟩ := by
  intro devices notifDb id cf now ev h
  simp [collection_iteration, h]

/-- Witness for C8: a deleted record (device 5 absent while device 6
remains) terminates the task with statuses and counter untouched. -/
theorem config_gone_terminates_witness :
    collection_iteration [⟨6, DeviceStatus.online, 10, none⟩] ⟨[], [], 0⟩ 5 2 1000
        CollectEvent.noValue =
      ⟨2, [⟨6, DeviceStatus.online, 10, none⟩], [], ⟨[], [], 0⟩, false,
        IterOutcome.terminated⟩ :=
  config_gone_terminates [⟨6, DeviceStatus.online, 10, none⟩] ⟨[], [], 0⟩ 5 2 1000
    CollectEvent.noValue rfl

/-! ## Theorems for C2 -/

/-- Counterexample to C2 as stated: at a concrete iteration where an
unexpected exception is the third consecutive failure, the counter reaches
3 but the disconnect-notification deduplicator is *not* invoked — the
notification store is unchanged — although an admin recipient exists. -/
theorem collection_loop_exc_counterexample :
    (collection_iteration [⟨5, DeviceStatus.online, 10, none⟩]
        ⟨[⟨1, UserRole.admin⟩], [], 0⟩ 5 2 1000 CollectEvent.exc).consecutive_failures =
      max_failures_before_notify ∧
    (collection_iteration [⟨5, DeviceStatus.online, 10, none⟩]
        ⟨[⟨1, UserRole.admin⟩], [], 0⟩ 5 2 1000 CollectEvent.exc).notified = false ∧
    (collection_iteration [⟨5, DeviceStatus.online, 10, none⟩]
        ⟨[⟨1, UserRole.admin⟩], [], 0⟩ 5 2 1000 CollectEvent.exc).notifDb =
      ⟨[⟨1, UserRole.admin⟩], [], 0⟩ :=
  ⟨rfl, rfl, rfl⟩

/-- A member of the admin/owner recipient list exists in the user table. -/
theorem mem_admin_owner_ids_exists (db : Db) (u : Nat)
    (h : u ∈ get_admin_and_owner_user_ids db) :
    (db.users.find? (fun x => x.uid == u)).isSome = true := by
  simp only [get_admin_and_owner_user_ids, List.mem_map] at h
  obtain ⟨user, hmemf, huid⟩ := h
  have hmem := List.mem_of_mem_filter hmemf
  rw [List.find?_isSome]
  exact ⟨user, hmem, by simp [huid]⟩

/-- **C2 (amended).** On a failed polling iteration the consecutive-failure
counter is incremented (never reset while failures continue), the device
status is set to error, and the loop suspends for the fixed 60-second
reconnection delay independent of the sampling interval; but only in the
absent-value branch is the disconnect-notification deduplicator invoked once
the counter has reached 3 — reaching every admin/owner recipient — while the
unexpected-exception branch increments the counter and sets the error status
without invoking the deduplicator. -/
theorem collection_loop_failure_handling :
    (∀ (devices : List DeviceRec) (db : Db) (id cf : Nat) (now : Int)
        (device : DeviceRec),
      devices.find? (fun dv => dv.did == id) = some device →
      collection_iteration devices db id cf now CollectEvent.noValue =
        if cf + 1 ≥ max_failures_before_notify then
          ⟨cf + 1, set_device_error devices id, [],
            (create_device_disconnect_notification db now id).2, true,
            IterOutcome.continued reconnection_delay⟩
        else
          ⟨cf + 1, set_device_error devices id, [], db, false,
            IterOutcome.continued reconnection_delay⟩) ∧
    (∀ (devices : List DeviceRec) (db : Db) (id cf : Nat) (now : Int)
        (device : DeviceRec),
      devices.find? (fun dv => dv.did == id) = some device →
      collection_iteration devices db id cf now CollectEvent.exc =
        ⟨cf + 1, set_device_error devices id, [], db, false,
          IterOutcome.continued reconnection_delay⟩) ∧
    (∀ (db : Db) (now : Int) (d u : Nat),
      u ∈ get_admin_and_owner_user_ids db →
      ∃ n ∈ (create_device_disconnect_notification db now d).1, n.user_id = u) := by
  refine ⟨?_, ?_, ?_⟩
  · intro devices db id cf now device h
    simp only [collection_iteration, h]
  · intro devices db id cf now device h
    simp only [collection_iteration, h]
  · intro db now d u h
    have hne : get_admin_and_owner_user_ids db ≠ [] := List.ne_nil_of_mem h
    have hemp : (get_admin_and_owner_user_ids db).isEmpty = false := by
      simpa [List.isEmpty_iff] using hne
    simp only [create_device_disconnect_notification, hemp, Bool.false_eq_true,
      if_false]
    exact fanout_reaches_existing now d (get_admin_and_owner_user_ids db) db u h
      (mem_admin_owner_ids_exists db u h)

/-- Witness for C2 (amended): a third consecutive absent-value failure
notifies (counter 3, error status, 60 s delay, store updated by the
fan-out), and a third consecutive unexpected-exception failure increments
and sets error without notifying. -/
theorem collection_loop_failure_handling_witness :
    collection_iteration [⟨5, DeviceStatus.online, 10, none⟩]
        ⟨[⟨1, UserRole.admin⟩], [], 0⟩ 5 2 1000 CollectEvent.noValue =
      (if 2 + 1 ≥ max_failures_before_notify then
        ⟨2 + 1, set_device_error [⟨5, DeviceStatus.online, 10, none⟩] 5, [],
          (create_device_disconnect_notification ⟨[⟨1, UserRole.admin⟩], [], 0⟩
            1000 5).2, true, IterOutcome.continued reconnection_delay⟩
      else
        ⟨2 + 1, set_device_error [⟨5, DeviceStatus.online, 10, none⟩] 5, [],
          ⟨[⟨1, UserRole.admin⟩], [], 0⟩, false,
          IterOutcome.continued reconnection_delay⟩) ∧
    collection_iteration [⟨5, DeviceStatus.online, 10, none⟩]
        ⟨[⟨1, UserRole.admin⟩], [], 0⟩ 5 2 1000 CollectEvent.exc =
      ⟨2 + 1, set_device_error [⟨5, DeviceStatus.online, 10, none⟩] 5, [],
        ⟨[⟨1, UserRole.admin⟩], [], 0⟩, false,
        IterOutcome.continued reconnection_delay⟩ ∧
    ∃ n ∈ (create_device_disconnect_notification ⟨[⟨1, UserRole.admin⟩], [], 0⟩
        1000 5).1, n.user_id = 1 :=
  ⟨collection_loop_failure_handling.1 [⟨5, DeviceStatus.online, 10, none⟩]
      ⟨[⟨1, UserRole.admin⟩], [], 0⟩ 5 2 1000 ⟨5, DeviceStatus.online, 10, none⟩ rfl,
   collection_loop_failure_handling.2.1 [⟨5, DeviceStatus.online, 10, none⟩]
      ⟨[⟨1, UserRole.admin⟩], [], 0⟩ 5 2 1000 ⟨5, DeviceStatus.online, 10, none⟩ rfl,
   collection_loop_failure_handling.2.2 ⟨[⟨1, UserRole.admin⟩], [], 0⟩ 1000 5 1
      (by simp [get_admin_and_owner_user_ids])⟩

/-- Witness for C3 at concrete environments: a failed initial connect gives
`(none, 0)`; failure on attempt 0 then success on attempt 1 with budget 3
gives the registers after 2 wire reads; three straight failures give
`(none, 3)`. -/
theorem read_registers_retry_semantics_witness :
    read_holding_registers ⟨false, fun _ => false, fun _ => ReadOutcome.errResp⟩ 3 = (none, 0) ∧
    read_holding_registers
      ⟨true, fun _ => true,
       fun k => if k = 1 then ReadOutcome.ok [100, 200] else ReadOutcome.errResp⟩ 3 =
      (some [100, 200], 2) ∧
    read_holding_registers ⟨true, fun _ => true, fun _ => ReadOutcome.errResp⟩ 3 = (none, 3) := by
  refine ⟨read_registers_retry_semantics.1 _ 3 rfl rfl, ?_, ?_⟩
  · exact read_registers_retry_semantics.2.1 _ 3 1 [100, 200] (Or.inl rfl) (by omega) rfl
      (fun j hj => by interval_cases j; rfl)
  · exact read_registers_retry_semantics.2.2 _ 3 (Or.inl rfl) (fun j _ => rfl)

end DDMS
